import Mathlib

/-!
Verification of the invocation-harness scripts of the
Open-Omics-Acceleration-Framework examples repository.

The repository holds three driver scripts:
* family 1: `applications/ProteinMPNN/examples/script_example_1.py` and
  `script_example_3.py` — argument parsing, output-directory creation, then
  one or two synchronous subprocess calls whose success is checked by an
  assertion;
* family 2: `applications/protgpt2/protgpt.py` — argument parsing, a loop
  invoking a text-generation pipeline a fixed number of times, then writing
  the last loop result to a hard-coded output file.

The filesystem is modelled as an association list from path strings to
entries (directories, or files holding a list of written chunks).  External
processes and the generation pipeline are opaque oracles supplied as
function arguments.
-/

/-- A filesystem entry: a directory, or a regular file with its content
modelled as the list of chunks written to it. -/
inductive Entry : Type
  | dir  : Entry
  | file : List String → Entry
  deriving DecidableEq, Repr

/-- A filesystem: an association list from absolute path strings to
entries.  Lookup takes the first binding for a path. -/
def FS : Type := List (String × Entry)

instance : DecidableEq FS := by
  unfold FS
  infer_instance

/-- Look a path up in the filesystem. -/
def fsLookup : FS → String → Option Entry
  | [], _ => none
  | (q, e) :: rest, p => if q = p then some e else fsLookup rest p

/-- Bind a path to an entry, shadowing any previous binding. -/
def fsInsert (fs : FS) (p : String) (e : Entry) : FS := (p, e) :: fs

/-- Model of the Python `os.path.exists` test used by the scripts. -/
def osPathExists (fs : FS) (p : String) : Bool := (fsLookup fs p).isSome

/-- Model of `os.makedirs(p)`: creates the directory, raising
`FileExistsError` when the path is already bound. -/
def osMakedirs (fs : FS) (p : String) : Except String FS :=
  if osPathExists fs p then Except.error "FileExistsError"
  else Except.ok (fsInsert fs p Entry.dir)

/-- The output-directory guard shared by `script_example_1.py` (lines
21-22) and `script_example_3.py` (lines 22-23):

    if not os.path.exists(output_dir):
        os.makedirs(output_dir)

The spec names this operation `ensure_output_directory`. -/
def ensure_output_directory (fs : FS) (p : String) : Except String FS :=
  if osPathExists fs p then Except.ok fs else osMakedirs fs p

/-!
Family 1: `script_example_1.py`.  The run configuration is the record of
parsed flags; the two call descriptors are built from it by pure token
concatenation, exactly as in the source (lines 28-45).  Numeric flags are
embedded as `Int`/`Rat` and rendered with `toString`, standing for the
Python `str(...)` conversions.
-/

/-- The run configuration of `script_example_1.py` after argument parsing
(lines 10-17).  `precision` keeps the raw selector string, which argparse
checks against the `choices` list. -/
structure Mpnn1Args : Type where
  input : String
  output : String
  num_seq_per_target : Int
  sampling_temp : Rat
  seed : Int
  batch_size : Int
  precision : String
  deriving DecidableEq, Repr

/-- Model of `os.path.join(output_dir, "parsed_pdbs.jsonl")`. -/
def pathJoin (dir name : String) : String := dir ++ "/" ++ name

/-- The first call descriptor of `script_example_1.py` (lines 28-32): the
chain-parsing subprocess. -/
def parseCallTokens (a : Mpnn1Args) : List String :=
  ["python", "helper_scripts/parse_multiple_chains.py",
   "--input_path", a.input,
   "--output_path", pathJoin a.output "parsed_pdbs.jsonl"]

/-- The second call descriptor of `script_example_1.py` (lines 36-45): the
inference subprocess. -/
def inferCallTokens (a : Mpnn1Args) : List String :=
  ["python", "protein_mpnn_run.py",
   "--jsonl_path", pathJoin a.output "parsed_pdbs.jsonl",
   "--out_folder", a.output,
   "--num_seq_per_target", toString a.num_seq_per_target,
   "--sampling_temp", toString a.sampling_temp,
   "--seed", toString a.seed,
   "--batch_size", toString a.batch_size,
   "--precision", a.precision]

/-- The call phase of `script_example_1.py` (lines 28-46), entered after
the output directory is ensured.  `ex` is the opaque subprocess oracle
mapping a call descriptor to its return code.  The result carries an
optional assertion message, the final filesystem, and the list of call
descriptors actually started, in order. -/
def script1Calls (fs1 : FS) (ex : List String → Int) (a : Mpnn1Args) :
    Option String × FS × List (List String) :=
  let c1 := parseCallTokens a
  if ex c1 = 0 then
    let c2 := inferCallTokens a
    if ex c2 = 0 then (none, fs1, [c1, c2])
    else (some "Error running protein folding script", fs1, [c1, c2])
  else (some "Error parsing multiple chains", fs1, [c1])

/-- The body of `script_example_1.py` after argument parsing (lines
20-46): ensure the output directory, then run the two calls in sequence. -/
def script1Run (fs : FS) (ex : List String → Int) (a : Mpnn1Args) :
    Option String × FS × List (List String) :=
  match ensure_output_directory fs a.output with
  | Except.error e => (some e, fs, [])
  | Except.ok fs1 => script1Calls fs1 ex a

/-- The `choices` list of the `--precision` flag of both ProteinMPNN
scripts, and of the `--dtype` flag of `protgpt.py`. -/
def precisionChoices : List String := ["float32", "bfloat16"]

/-- Model of the argparse `choices` validation for the precision/dtype
selector: any value outside the enumerated set is rejected at parse time. -/
def parsePrecision (s : String) : Except String String :=
  if s ∈ precisionChoices then Except.ok s
  else Except.error ("argument --precision: invalid choice: " ++ s)

/-- `script_example_1.py` `main` from argument parsing onward: argparse
validates the precision selector before any statement of the body runs. -/
def script1Main (fs : FS) (ex : List String → Int) (a : Mpnn1Args) :
    Option String × FS × List (List String) :=
  match parsePrecision a.precision with
  | Except.error e => (some e, fs, [])
  | Except.ok _ => script1Run fs ex a

/-!
Family 2: `protgpt.py`.  The generation pipeline is an opaque oracle
`gen : Nat → List String` giving, for each iteration index, the list of
generated texts the pipeline returns on that iteration.  The loop body
rebinds the Python variable `sequences` on every iteration, so its value
after the loop is modelled by a fold starting from "unassigned" (`none`).
-/

/-- The value of the Python variable `sequences` after
`for i in range(n): sequences = protgpt2(...)` (lines 40-50): unassigned
when the loop body never ran, otherwise the last assignment. -/
def loopSeq (gen : Nat → List String) (n : Nat) : Option (List String) :=
  (List.range n).foldl (fun _ i => some (gen i)) none

/-- The hard-coded output locations of `protgpt.py` (line 52). -/
def outDir : String := "/app/output"

def outFile : String := "/app/output/output_file.txt"

/-- One written line per generated text: `f.write(seq + chr(10))`. -/
def writeLines (seqs : List String) : List String :=
  seqs.map (fun s => s ++ "\n")

/-- The body of `protgpt.py` after argument parsing (lines 40-56): run the
pipeline `n` times, then open the output file for writing (truncating it)
and write each generated text of the last iteration on its own line.  The
result carries an optional raised-error message, the final filesystem, and
the list of pipeline-invocation indices performed.  Opening fails when the
hard-coded output directory is not present; iterating an unassigned
`sequences` raises a NameError after the file has been truncated. -/
def protgptRun (fs : FS) (gen : Nat → List String) (n : Nat) :
    Option String × FS × List Nat :=
  let calls := List.range n
  if fsLookup fs outDir = some Entry.dir then
    let fs1 := fsInsert fs outFile (Entry.file [])
    match loopSeq gen n with
    | none => (some "NameError: sequences is not defined", fs1, calls)
    | some seqs =>
        (none, fsInsert fs1 outFile (Entry.file (writeLines seqs)), calls)
  else (some "FileNotFoundError", fs, calls)

/-- The raw command-line values of `protgpt.py` (lines 15-23).  The
`--do_sample` flag is declared with `type=bool`, so its raw string value
is kept; `none` means the flag was not supplied and the default `True`
applies.  `dtype` keeps the raw selector string checked against
`choices`. -/
structure GptRaw : Type where
  max_length : Int
  do_sample : Option String
  top_k : Int
  repetition_penalty : Rat
  num_return_sequences : Int
  eos_token_id : Int
  dtype : String
  iterations : Nat
  deriving DecidableEq, Repr

/-- Python `bool(s)` on a string: truthiness is non-emptiness. -/
def pyBoolOfString (s : String) : Bool := !(s == "")

/-- The parsed value of `--do_sample`: the declared default `True` when the
flag is absent, otherwise `bool` applied to the raw string, as argparse
does for `type=bool`. -/
def parseGptDoSample : Option String → Bool
  | none => true
  | some s => pyBoolOfString s

/-- The `do_sample` argument passed to every pipeline invocation (line
45). -/
def pipelineDoSample (r : GptRaw) : Bool := parseGptDoSample r.do_sample

/-- Model of the argparse `choices` validation of `--dtype` (line 21). -/
def parseDtype (s : String) : Except String String :=
  if s ∈ precisionChoices then Except.ok s
  else Except.error ("argument --dtype: invalid choice: " ++ s)

/-- `protgpt.py` `main` from argument parsing onward: argparse validates
the dtype selector before any statement of the body runs. -/
def protgptMain (fs : FS) (gen : Nat → List String) (r : GptRaw) :
    Option String × FS × List Nat :=
  match parseDtype r.dtype with
  | Except.error e => (some e, fs, [])
  | Except.ok _ => protgptRun fs gen r.iterations

/-- A fixed pipeline oracle used in concrete runs. -/
def genA : Nat → List String := fun i => ["SEQ" ++ toString i]

/-!
The spec operation `persist_text` is the with-block of `protgpt.py`
(lines 54-56):

    with open(output_path, chr(119)) as f:
        for seq in sequences:
            f.write(seq + chr(10))

modelled at write granularity, with an injectable failure index standing
for an exception raised by one of the writes; the with-statement closes
the handle on both the normal and the exceptional exit.
-/

/-- Append one written chunk to the file bound at `p`. -/
def fileAppend (fs : FS) (p : String) (l : String) : FS :=
  match fsLookup fs p with
  | some (Entry.file ls) => fsInsert fs p (Entry.file (ls ++ [l]))
  | _ => fs

/-- The write loop of the with-block: write the lines in order, each with
its terminator, unless the injected failure index is reached first. -/
def writeLoop : FS → String → List String → Option Nat → FS × Option String
  | fs, _, [], _ => (fs, none)
  | fs, _, _ :: _, some 0 => (fs, some "IOError")
  | fs, p, l :: ls, some (k + 1) =>
      writeLoop (fileAppend fs p (l ++ "\n")) p ls (some k)
  | fs, p, l :: ls, none =>
      writeLoop (fileAppend fs p (l ++ "\n")) p ls none

/-- `persist_text`: open the target for writing (truncating or creating
it), run the write loop, and close the handle on every exit path.  The
middle component of the result is the handle-closed flag, true on both
the normal and the failing exit, as the with-statement guarantees. -/
def persist_text (fs : FS) (p : String) (lines : List String)
    (failAt : Option Nat) : FS × Bool × Option String :=
  let fs1 := fsInsert fs p (Entry.file [])
  let r := writeLoop fs1 p lines failAt
  (r.1, true, r.2)

/-!
Helper lemmas.
-/

theorem fsLookup_insert (fs : FS) (p : String) (e : Entry) :
    fsLookup (fsInsert fs p e) p = some e := by
  simp [fsLookup, fsInsert]

/-- `ensure_output_directory` never raises in this model: the `makedirs`
branch only runs when the path is unbound. -/
theorem ensure_output_directory_ok (fs : FS) (p : String) :
    ∃ fs1, ensure_output_directory fs p = Except.ok fs1 := by
  unfold ensure_output_directory osMakedirs
  by_cases h : osPathExists fs p = true
  · exact ⟨fs, by simp [h]⟩
  · exact ⟨fsInsert fs p Entry.dir, by simp [h]⟩

theorem loopSeq_succ (gen : Nat → List String) (n : Nat) :
    loopSeq gen (n + 1) = some (gen n) := by
  unfold loopSeq
  rw [List.range_succ, List.foldl_append]
  rfl

theorem fileAppend_lookup (fs : FS) (p : String) (acc : List String)
    (l : String) (h : fsLookup fs p = some (Entry.file acc)) :
    fsLookup (fileAppend fs p l) p = some (Entry.file (acc ++ [l])) := by
  unfold fileAppend
  rw [h]
  exact fsLookup_insert fs p (Entry.file (acc ++ [l]))

theorem writeLoop_none (lines : List String) :
    ∀ (fs : FS) (p : String) (acc : List String),
      fsLookup fs p = some (Entry.file acc) →
      (writeLoop fs p lines none).2 = none
        ∧ fsLookup (writeLoop fs p lines none).1 p
            = some (Entry.file (acc ++ writeLines lines)) := by
  induction lines with
  | nil =>
      intro fs p acc h
      simpa [writeLoop, writeLines] using h
  | cons l ls ih =>
      intro fs p acc h
      have h1 := fileAppend_lookup fs p acc (l ++ "\n") h
      have h2 := ih (fileAppend fs p (l ++ "\n")) p (acc ++ [l ++ "\n"]) h1
      simpa [writeLoop, writeLines, List.append_assoc] using h2

theorem writeLoop_fail (lines : List String) :
    ∀ (k : Nat) (fs : FS) (p : String) (acc : List String),
      fsLookup fs p = some (Entry.file acc) → k < lines.length →
      (writeLoop fs p lines (some k)).2 = some "IOError"
        ∧ fsLookup (writeLoop fs p lines (some k)).1 p
            = some (Entry.file (acc ++ writeLines (lines.take k))) := by
  induction lines with
  | nil =>
      intro k fs p acc _ hk
      simp at hk
  | cons l ls ih =>
      intro k fs p acc h hk
      cases k with
      | zero =>
          simpa [writeLoop, writeLines] using h
      | succ k =>
          have h1 := fileAppend_lookup fs p acc (l ++ "\n") h
          have hk2 : k < ls.length := by
            simpa [Nat.succ_lt_succ_iff] using hk
          have h2 := ih k (fileAppend fs p (l ++ "\n")) p (acc ++ [l ++ "\n"]) h1 hk2
          simpa [writeLoop, writeLines, List.append_assoc] using h2

theorem script1Calls_calls (fs1 : FS) (ex : List String → Int)
    (a : Mpnn1Args) :
    (script1Calls fs1 ex a).2.2
      = if ex (parseCallTokens a) = 0
        then [parseCallTokens a, inferCallTokens a]
        else [parseCallTokens a] := by
  unfold script1Calls
  by_cases h1 : ex (parseCallTokens a) = 0
  · by_cases h2 : ex (inferCallTokens a) = 0 <;> simp [h1, h2]
  · simp [h1]

theorem script1Calls_fs (fs1 : FS) (ex : List String → Int)
    (a : Mpnn1Args) : (script1Calls fs1 ex a).2.1 = fs1 := by
  unfold script1Calls
  by_cases h1 : ex (parseCallTokens a) = 0
  · by_cases h2 : ex (inferCallTokens a) = 0 <;> simp [h1, h2]
  · simp [h1]

/-!
Claims.
-/

/-- Claim C1 counterexample: a family-2 run with the output directory
absent.  The directory is absent at start, the harness attempts to write
into it without ever creating it, and the run fails at the file-open with
the filesystem unchanged — no directory-creation step exists in
`protgpt.py`. -/
theorem c1_counterexample :
    protgptMain [] genA ⟨100, none, 950, 6/5, 1, 0, "float32", 1⟩
        = (some "FileNotFoundError", ([] : FS), [0])
      ∧ fsLookup ([] : FS) outDir = none := by
  constructor
  · rfl
  · rfl

/-- Claim C1 (amended): in script family 1 the harness ensures the output
directory before any external call — when the path is unbound it creates
the directory, and when it is already a directory it proceeds, so in both
cases every call runs after the directory exists; the family-2 harness
never creates its output directory, and any run with that directory
absent fails at the file-open, the filesystem unchanged. -/
theorem c1_amended_output_directory (fs : FS) (ex : List String → Int)
    (a : Mpnn1Args) :
    (fsLookup fs a.output = none →
       ensure_output_directory fs a.output
           = Except.ok (fsInsert fs a.output Entry.dir)
         ∧ fsLookup (fsInsert fs a.output Entry.dir) a.output = some Entry.dir
         ∧ script1Run fs ex a
             = script1Calls (fsInsert fs a.output Entry.dir) ex a)
      ∧ (fsLookup fs a.output = some Entry.dir →
           script1Run fs ex a = script1Calls fs ex a)
      ∧ (∀ (fs2 : FS) (gen : Nat → List String) (n : Nat),
           fsLookup fs2 outDir = none →
           protgptRun fs2 gen n = (some "FileNotFoundError", fs2, List.range n)) := by
  refine ⟨?_, ?_, ?_⟩
  · intro h
    have hex : osPathExists fs a.output = false := by
      simp [osPathExists, h]
    have he : ensure_output_directory fs a.output
        = Except.ok (fsInsert fs a.output Entry.dir) := by
      unfold ensure_output_directory osMakedirs
      simp [hex]
    refine ⟨he, fsLookup_insert fs a.output Entry.dir, ?_⟩
    unfold script1Run
    rw [he]
  · intro h
    have hex : osPathExists fs a.output = true := by
      simp [osPathExists, h]
    have he : ensure_output_directory fs a.output = Except.ok fs := by
      unfold ensure_output_directory
      simp [hex]
    unfold script1Run
    rw [he]
  · intro fs2 gen n h
    unfold protgptRun
    simp [h]

theorem c1_amended_witness :
    (ensure_output_directory ([] : FS) "out" = Except.ok [("out", Entry.dir)]
       ∧ fsLookup [("out", Entry.dir)] "out" = some Entry.dir
       ∧ script1Run [] (fun _ => (0 : Int)) ⟨"in", "out", 2, 1, 37, 1, "float32"⟩
           = script1Calls [("out", Entry.dir)] (fun _ => (0 : Int))
               ⟨"in", "out", 2, 1, 37, 1, "float32"⟩)
      ∧ protgptRun [] genA 2 = (some "FileNotFoundError", ([] : FS), [0, 1]) :=
  ⟨(c1_amended_output_directory [] (fun _ => (0 : Int))
      ⟨"in", "out", 2, 1, 37, 1, "float32"⟩).1 rfl,
   (c1_amended_output_directory [] (fun _ => (0 : Int))
      ⟨"in", "out", 2, 1, 37, 1, "float32"⟩).2.2 [] genA 2 rfl⟩

/-- Claim C2: when the iteration count is at least one and the output
directory exists, a family-2 run succeeds, performs exactly the given
pipeline invocations, and the output file afterwards holds exactly the
texts generated by the final iteration, one per line with its terminator —
nothing from any earlier iteration. -/
theorem c2_final_iteration_only (fs : FS) (gen : Nat → List String)
    (n : Nat) (h : 1 ≤ n) (hdir : fsLookup fs outDir = some Entry.dir) :
    ∃ fs2, protgptRun fs gen n = (none, fs2, List.range n)
      ∧ fsLookup fs2 outFile
          = some (Entry.file (writeLines (gen (n - 1)))) := by
  obtain ⟨m, rfl⟩ : ∃ m, n = m + 1 := ⟨n - 1, (Nat.succ_pred_eq_of_pos h).symm⟩
  refine ⟨fsInsert (fsInsert fs outFile (Entry.file []))
      outFile (Entry.file (writeLines (gen m))), ?_, ?_⟩
  · unfold protgptRun
    simp [hdir, loopSeq_succ]
  · simpa using fsLookup_insert (fsInsert fs outFile (Entry.file []))
      outFile (Entry.file (writeLines (gen m)))

theorem c2_witness :
    (1 ≤ 3 ∧ fsLookup [(outDir, Entry.dir)] outDir = some Entry.dir)
      ∧ (∃ fs2, protgptRun [(outDir, Entry.dir)] genA 3
            = (none, fs2, List.range 3)
          ∧ fsLookup fs2 outFile
              = some (Entry.file (writeLines (genA (3 - 1))))) :=
  ⟨⟨by decide, by simp [fsLookup]⟩,
   c2_final_iteration_only [(outDir, Entry.dir)] genA 3 (by decide)
     (by simp [fsLookup])⟩

/-- Claim C3: if the chain-parsing call returns a non-success status, the
run stops at the assertion on line 33 with its fixed message; the
inference descriptor is never among the started calls, and it is not even
equal to the one call that was started. -/
theorem c3_first_call_failure_stops_run (fs : FS) (ex : List String → Int)
    (a : Mpnn1Args) (h : ex (parseCallTokens a) ≠ 0) :
    (∃ fs1, script1Run fs ex a
        = (some "Error parsing multiple chains", fs1, [parseCallTokens a]))
      ∧ inferCallTokens a ∉ [parseCallTokens a] := by
  constructor
  · obtain ⟨fs1, h1⟩ := ensure_output_directory_ok fs a.output
    refine ⟨fs1, ?_⟩
    unfold script1Run script1Calls
    simp [h1, h]
  · intro hmem
    have hlen : (inferCallTokens a).length = (parseCallTokens a).length := by
      simp at hmem
      rw [hmem]
    simp [inferCallTokens, parseCallTokens] at hlen

theorem c3_witness :
    ((fun _ => (1 : Int)) (parseCallTokens
        ⟨"in", "out", 2, 1, 37, 1, "float32"⟩) ≠ 0)
      ∧ ((∃ fs1, script1Run [] (fun _ => (1 : Int))
            ⟨"in", "out", 2, 1, 37, 1, "float32"⟩
            = (some "Error parsing multiple chains", fs1,
               [parseCallTokens ⟨"in", "out", 2, 1, 37, 1, "float32"⟩]))
          ∧ inferCallTokens ⟨"in", "out", 2, 1, 37, 1, "float32"⟩
              ∉ [parseCallTokens ⟨"in", "out", 2, 1, 37, 1, "float32"⟩]) :=
  ⟨by decide,
   c3_first_call_failure_stops_run [] (fun _ => (1 : Int))
     ⟨"in", "out", 2, 1, 37, 1, "float32"⟩ (by decide)⟩

/-- Claim C4: for any precision/dtype selector outside the enumerated
choices, both script families fail at argument parsing, with the
filesystem unchanged (no directory created) and no external call or
pipeline invocation started. -/
theorem c4_invalid_precision_rejected_at_parse (fs fs2 : FS)
    (ex : List String → Int) (a : Mpnn1Args) (gen : Nat → List String)
    (r : GptRaw) (ha : a.precision ∉ precisionChoices)
    (hr : r.dtype ∉ precisionChoices) :
    (∃ e, script1Main fs ex a = (some e, fs, []))
      ∧ (∃ e, protgptMain fs2 gen r = (some e, fs2, [])) := by
  constructor
  · refine ⟨"argument --precision: invalid choice: " ++ a.precision, ?_⟩
    unfold script1Main parsePrecision
    simp [ha]
  · refine ⟨"argument --dtype: invalid choice: " ++ r.dtype, ?_⟩
    unfold protgptMain parseDtype
    simp [hr]

theorem c4_witness :
    ("float16" ∉ precisionChoices)
      ∧ ((∃ e, script1Main [] (fun _ => (0 : Int))
              ⟨"in", "out", 2, 1, 37, 1, "float16"⟩
              = (some e, ([] : FS), []))
          ∧ (∃ e, protgptMain [] genA ⟨100, none, 950, 6/5, 1, 0, "float16", 5⟩
              = (some e, ([] : FS), []))) :=
  ⟨by decide,
   c4_invalid_precision_rejected_at_parse [] [] (fun _ => (0 : Int))
     ⟨"in", "out", 2, 1, 37, 1, "float16"⟩ genA
     ⟨100, none, 950, 6/5, 1, 0, "float16", 5⟩ (by decide) (by decide)⟩

/-- Claim C5 counterexample: when the output path is already bound to a
non-directory file, `ensure_output_directory` silently succeeds — it does
not fail with an IO error, because the `os.path.exists` guard is true and
`os.makedirs` is never reached. -/
theorem c5_counterexample :
    ensure_output_directory [("out", Entry.file ["x"])] "out"
      = Except.ok [("out", Entry.file ["x"])] := by
  rfl

/-- Claim C5 (amended): when the given output path collides with an
existing non-directory file, `ensure_output_directory` silently proceeds,
returning the filesystem unchanged and raising no error; the existence
check masks the collision, so a creation error can only arise when the
path is not bound at all. -/
theorem c5_amended (fs : FS) (p : String) (L : List String)
    (h : fsLookup fs p = some (Entry.file L)) :
    ensure_output_directory fs p = Except.ok fs := by
  unfold ensure_output_directory
  simp [osPathExists, h]

theorem c5_amended_witness :
    fsLookup [("out", Entry.file ["x"])] "out" = some (Entry.file ["x"])
      ∧ ensure_output_directory [("out", Entry.file ["x"])] "out"
          = Except.ok [("out", Entry.file ["x"])] :=
  ⟨by decide, c5_amended [("out", Entry.file ["x"])] "out" ["x"] (by decide)⟩

/-- Claim C6: `ensure_output_directory` is idempotent — if a first call
succeeds and returns the filesystem `fs1`, a second call on `fs1` with the
same path raises no error and leaves the filesystem unchanged. -/
theorem c6_ensure_output_directory_idempotent (fs fs1 : FS) (p : String)
    (h : ensure_output_directory fs p = Except.ok fs1) :
    ensure_output_directory fs1 p = Except.ok fs1 := by
  unfold ensure_output_directory osMakedirs at h ⊢
  by_cases hex : osPathExists fs p = true
  · simp [hex] at h
    subst h
    simp [hex]
  · simp [hex] at h
    subst h
    simp [osPathExists, fsLookup_insert]

theorem c6_witness :
    ensure_output_directory ([] : FS) "out"
        = Except.ok [("out", Entry.dir)]
      ∧ ensure_output_directory [("out", Entry.dir)] "out"
          = Except.ok [("out", Entry.dir)] :=
  ⟨by rfl,
   c6_ensure_output_directory_idempotent [] [("out", Entry.dir)] "out" (by rfl)⟩

/-- Claim C7: building the call descriptors is deterministic and pure —
identical configurations yield identical token sequences for both
descriptors; the descriptors started by a run do not depend on the
filesystem state; and the call phase leaves the filesystem untouched, so
descriptor construction has no side effect on it. -/
theorem c7_build_call_pure (a b : Mpnn1Args) (hab : a = b) :
    (parseCallTokens a = parseCallTokens b
       ∧ inferCallTokens a = inferCallTokens b)
      ∧ (∀ (fs fs2 : FS) (ex : List String → Int),
           (script1Run fs ex a).2.2 = (script1Run fs2 ex a).2.2)
      ∧ (∀ (fs1 : FS) (ex : List String → Int),
           (script1Calls fs1 ex a).2.1 = fs1) := by
  subst hab
  refine ⟨⟨rfl, rfl⟩, ?_, fun fs1 ex => script1Calls_fs fs1 ex a⟩
  intro fs fs2 ex
  obtain ⟨u, hu⟩ := ensure_output_directory_ok fs a.output
  obtain ⟨v, hv⟩ := ensure_output_directory_ok fs2 a.output
  unfold script1Run
  rw [hu, hv, script1Calls_calls, script1Calls_calls]

theorem c7_witness :
    (parseCallTokens ⟨"in", "out", 2, 1, 37, 1, "float32"⟩
         = parseCallTokens ⟨"in", "out", 2, 1, 37, 1, "float32"⟩
       ∧ inferCallTokens ⟨"in", "out", 2, 1, 37, 1, "float32"⟩
           = inferCallTokens ⟨"in", "out", 2, 1, 37, 1, "float32"⟩)
      ∧ (∀ (fs fs2 : FS) (ex : List String → Int),
           (script1Run fs ex ⟨"in", "out", 2, 1, 37, 1, "float32"⟩).2.2
             = (script1Run fs2 ex ⟨"in", "out", 2, 1, 37, 1, "float32"⟩).2.2)
      ∧ (∀ (fs1 : FS) (ex : List String → Int),
           (script1Calls fs1 ex ⟨"in", "out", 2, 1, 37, 1, "float32"⟩).2.1
             = fs1) :=
  c7_build_call_pure ⟨"in", "out", 2, 1, 37, 1, "float32"⟩
    ⟨"in", "out", 2, 1, 37, 1, "float32"⟩ rfl

/-- Claim C8: `persist_text` truncates any prior content of the target on
open, writes each given line followed by a line terminator, and the handle
is closed on every exit path — on the normal exit the file holds exactly
the given lines and no error is reported, and on a failure injected at any
write the file holds exactly the lines already written, the error is
reported, and the handle is still closed. -/
theorem c8_persist_text (fs : FS) (p : String) (lines prior : List String)
    (_hp : fsLookup fs p = some (Entry.file prior)) :
    (∀ failAt, (persist_text fs p lines failAt).2.1 = true)
      ∧ ((persist_text fs p lines none).2.2 = none
           ∧ fsLookup (persist_text fs p lines none).1 p
               = some (Entry.file (writeLines lines)))
      ∧ (∀ k, k < lines.length →
           (persist_text fs p lines (some k)).2.2 = some "IOError"
             ∧ fsLookup (persist_text fs p lines (some k)).1 p
                 = some (Entry.file (writeLines (lines.take k)))) := by
  have h0 : fsLookup (fsInsert fs p (Entry.file [])) p
      = some (Entry.file ([] : List String)) :=
    fsLookup_insert fs p (Entry.file [])
  refine ⟨fun _ => rfl, ?_, ?_⟩
  · have h := writeLoop_none lines (fsInsert fs p (Entry.file [])) p [] h0
    simpa [persist_text] using h
  · intro k hk
    have h := writeLoop_fail lines k (fsInsert fs p (Entry.file [])) p [] h0 hk
    simpa [persist_text] using h

theorem c8_witness :
    fsLookup [("f", Entry.file ["old"])] "f" = some (Entry.file ["old"])
      ∧ (persist_text [("f", Entry.file ["old"])] "f" ["a", "b"] (some 1)).2.1
          = true
      ∧ ((persist_text [("f", Entry.file ["old"])] "f" ["a", "b"] none).2.2
            = none
          ∧ fsLookup (persist_text [("f", Entry.file ["old"])] "f"
                ["a", "b"] none).1 "f"
              = some (Entry.file (writeLines ["a", "b"])))
      ∧ ((persist_text [("f", Entry.file ["old"])] "f" ["a", "b"] (some 1)).2.2
            = some "IOError"
          ∧ fsLookup (persist_text [("f", Entry.file ["old"])] "f"
                ["a", "b"] (some 1)).1 "f"
              = some (Entry.file (writeLines (["a", "b"].take 1)))) :=
  ⟨by decide,
   (c8_persist_text [("f", Entry.file ["old"])] "f" ["a", "b"] ["old"]
      (by decide)).1 (some 1),
   (c8_persist_text [("f", Entry.file ["old"])] "f" ["a", "b"] ["old"]
      (by decide)).2.1,
   (c8_persist_text [("f", Entry.file ["old"])] "f" ["a", "b"] ["old"]
      (by decide)).2.2 1 (by decide)⟩

/-- Claim C9: a family-2 run with iteration count zero never assigns the
generated-sequences variable, so iterating it at persist time raises a
NameError — but only after the output file has been opened for writing and
truncated: whatever content the file held before, afterwards it is bound
to the empty content, so the prior output is destroyed and the run is not
atomic on this error path. -/
theorem c9_zero_iterations_truncates (fs : FS) (gen : Nat → List String)
    (prior : List String) (hdir : fsLookup fs outDir = some Entry.dir)
    (_hfile : fsLookup fs outFile = some (Entry.file prior)) :
    protgptRun fs gen 0
        = (some "NameError: sequences is not defined",
           fsInsert fs outFile (Entry.file []), [])
      ∧ fsLookup (fsInsert fs outFile (Entry.file [])) outFile
          = some (Entry.file []) := by
  constructor
  · unfold protgptRun
    simp [hdir, loopSeq]
  · exact fsLookup_insert fs outFile (Entry.file [])

theorem c9_witness :
    (fsLookup [(outDir, Entry.dir), (outFile, Entry.file ["old"])] outDir
         = some Entry.dir
       ∧ fsLookup [(outDir, Entry.dir), (outFile, Entry.file ["old"])] outFile
           = some (Entry.file ["old"]))
      ∧ (protgptRun [(outDir, Entry.dir), (outFile, Entry.file ["old"])] genA 0
            = (some "NameError: sequences is not defined",
               fsInsert [(outDir, Entry.dir), (outFile, Entry.file ["old"])]
                 outFile (Entry.file []), [])
          ∧ fsLookup (fsInsert [(outDir, Entry.dir), (outFile, Entry.file ["old"])]
                outFile (Entry.file [])) outFile = some (Entry.file [])) :=
  ⟨⟨by decide, by decide⟩,
   c9_zero_iterations_truncates
     [(outDir, Entry.dir), (outFile, Entry.file ["old"])] genA ["old"]
     (by decide) (by decide)⟩

/-- Claim C10: because `--do_sample` is declared with `type=bool`, the
parsed value applied at every pipeline call is Python string truthiness —
any explicitly supplied non-empty raw value, including the string False,
parses to true, and only the empty string parses to false, so sampling
cannot be disabled by passing the word False. -/
theorem c10_do_sample_truthiness (r : GptRaw) :
    (∀ s, r.do_sample = some s → s ≠ "" → pipelineDoSample r = true)
      ∧ (r.do_sample = some "False" → pipelineDoSample r = true)
      ∧ (r.do_sample = some "" → pipelineDoSample r = false) := by
  refine ⟨?_, ?_, ?_⟩
  · intro s hs hne
    simp [pipelineDoSample, parseGptDoSample, hs, pyBoolOfString, hne]
  · intro hs
    simp [pipelineDoSample, parseGptDoSample, hs, pyBoolOfString]
  · intro hs
    simp [pipelineDoSample, parseGptDoSample, hs, pyBoolOfString]

theorem c10_witness :
    pipelineDoSample ⟨100, some "False", 950, 6/5, 1, 0, "float32", 5⟩ = true
      ∧ pipelineDoSample ⟨100, some "", 950, 6/5, 1, 0, "float32", 5⟩ = false :=
  ⟨(c10_do_sample_truthiness
      ⟨100, some "False", 950, 6/5, 1, 0, "float32", 5⟩).2.1 rfl,
   (c10_do_sample_truthiness
      ⟨100, some "", 950, 6/5, 1, 0, "float32", 5⟩).2.2 rfl⟩
